import Mathlib

/-!
Shallow embedding of `src/obs_controller/controller.py` (class `OBSController`)
together with proofs about the replay-buffer lifecycle, the save-confirmation
polling loop, the session guards and the retention (cleanup) policy.

Modelling conventions:
* A scanned directory is a `List FileInfo` in directory-scan order; a directory
  that is unreadable (any exception inside the Python `try`) is `none`.
* Machine integers are `Nat` (sizes, timestamps, ports); Python raises are
  modelled by `Except` results or explicit boolean oracles in the environment.
* The `@require_connection` / `@require_process_running` decorators are inlined
  as the first guard of each decorated operation, exactly as the wrappers run.
-/

namespace ObsController

/-- Stat record of one file as observed by a directory scan: `path` is the
string path, `mtime`/`ctime`/`atime` the stat timestamps, `size` `st_size`. -/
structure FileInfo where
  path : String
  mtime : Nat
  ctime : Nat
  size : Nat
deriving DecidableEq, Repr

/-- Left fold of Python `max(..., key=lambda p: p.stat().st_mtime)` over the
remaining files: the current best is replaced only on a strictly greater key,
so on ties the earliest element wins, as in CPython `max`. -/
def maxByMtimeAux (cur : FileInfo) : List FileInfo → FileInfo
  | [] => cur
  | f :: fs => maxByMtimeAux (if f.mtime > cur.mtime then f else cur) fs

/-- Python `max(iterable, key=..., default=None)`: `none` on an empty scan. -/
def maxByMtime : List FileInfo → Option FileInfo
  | [] => none
  | f :: fs => some (maxByMtimeAux f fs)

/-- `OBSController.get_latest_video`: the newest `*.mp4` by modification time,
or `None` when the directory holds no matching file or any error occurs while
reading it (the whole body is inside `try/except` returning `None`). -/
def get_latest_video (dir : Option (List FileInfo)) : Option FileInfo :=
  match dir with
  | none => none
  | some fs => maxByMtime fs

/-- Python `sorted(paths, key=lambda f: f.stat().st_ctime)`: a stable sort by
creation time; `List.insertionSort` with the non-strict key comparison is
stable in the same sense, so both produce the same list. -/
def sortByCtime (l : List FileInfo) : List FileInfo :=
  List.insertionSort (fun f g => f.ctime ≤ g.ctime) l

/-- Result of `oldest_video.stat()` executed directly after
`os.remove(oldest_video)` succeeded: the file no longer exists, so the call
raises `FileNotFoundError`; there is no size to return. -/
def statAfterRemove (_f : FileInfo) : Option Nat := none

/-- Loop body of `OBSController.cleanup_videos`: `while videos and
current_size > self.max_folder_size`, pop the oldest entry, `os.remove` it
(`delOk` says whether the removal raises, e.g. a locked file), then re-`stat`
it to learn the freed size and subtract.  Because the `stat` happens after the
removal it raises, the handler is entered and `current_size` stays unchanged.
Returns the list of files still on disk, in sorted order. -/
def cleanupLoop (cap : Nat) (delOk : FileInfo → Bool) : Nat → List FileInfo → List FileInfo
  | _, [] => []
  | cs, v :: rest =>
    if cs ≤ cap then v :: rest
    else if delOk v then
      cleanupLoop cap delOk
        (match statAfterRemove v with
          | some sz => cs - sz
          | none => cs) rest
    else v :: cleanupLoop cap delOk cs rest

/-- `OBSController.cleanup_videos`: sort the scan by creation time, compute the
current total size, then run the deletion loop.  `cap` is
`self.max_folder_size`; the result is the set of surviving files. -/
def cleanup_videos (cap : Nat) (delOk : FileInfo → Bool) (scan : List FileInfo) : List FileInfo :=
  cleanupLoop cap delOk (((sortByCtime scan).map (·.size)).sum) (sortByCtime scan)

/-- `OBSController.check_and_manage_folder_size`: sum the sizes of all matching
files and invoke `cleanup_videos` only when the total strictly exceeds the
configured maximum. -/
def check_and_manage_folder_size (cap : Nat) (delOk : FileInfo → Bool)
    (scan : List FileInfo) : List FileInfo :=
  if (scan.map (·.size)).sum > cap then cleanup_videos cap delOk scan else scan

/-- Exceptions of `src/obs_controller/exceptions.py` that the controller can
raise out of a public operation. -/
inductive OBSError where
  | processError
  | webSocketError
  | connectionError
deriving DecidableEq, Repr

/-- Remote requests the controller can issue over the websocket session.  A
hypothetical cancel request is part of the vocabulary only so that theorems can
state that it is never issued. -/
inductive Request where
  | saveReplayBuffer
  | startReplayBuffer
  | stopReplayBuffer
  | cancelReplaySave
deriving DecidableEq, Repr

/-- An `obsws` client object: `id` identifies the underlying OS-level
connection, `connected` is the `ws.ws.connected` attribute. -/
structure WSClient where
  id : Nat
  connected : Bool
deriving DecidableEq, Repr

/-- Fields of `OBSController` relevant to session management: `host`, `port`,
`password` and the single nullable handle `self.ws`.  There is no separate
field caching connectivity. -/
structure Controller where
  host : String
  port : Nat
  password : String
  ws : Option WSClient
deriving DecidableEq, Repr

/-- Ambient bookkeeping of OS-level websocket connections: `nextId` numbers the
next `obsws` object created, `live` lists the ids of connections currently
open (connected and never closed). -/
structure World where
  nextId : Nat
  live : List Nat
deriving DecidableEq, Repr

/-- Python truthiness of a `bool | None` value, as used by the guard
decorators (`if not self.is_process_running`): `None` is falsy. -/
def truthy : Option Bool → Bool
  | none => false
  | some b => b

/-- `OBSController.is_process_running`: the WMI query either returns a process
count (`Except.ok`, giving `len(colItems) > 0`) or raises (`Except.error`); in
the latter case the handler only logs and the function falls off the end,
returning Python `None`. -/
def is_process_running (q : Except Unit Bool) : Option Bool :=
  match q with
  | .ok b => some b
  | .error _ => none

/-- `OBSController.is_connected`: `self.ws` is not `None` and
`self.ws.ws.connected`; a missing handle (and any attribute error that a
missing handle causes) yields `False`. -/
def is_connected (c : Controller) : Bool :=
  match c.ws with
  | none => false
  | some client => client.connected

/-- `OBSController.connect`, decorated with `@require_process_running` only:
when the liveness query is falsy the decorator raises `OBSProcessError` before
the body runs.  The body sets `self.ws` to a fresh `obsws` object and calls
`connect()` on it (`connectOk` says whether that call succeeds); the previous
handle is overwritten without being closed, so if it was live it stays live. -/
def connect (q : Except Unit Bool) (connectOk : Bool) (c : Controller) (w : World) :
    Except OBSError Bool × Controller × World :=
  if truthy (is_process_running q) then
    (if connectOk then .ok true else .ok false,
     { c with ws := some { id := w.nextId, connected := connectOk } },
     { nextId := w.nextId + 1,
       live := if connectOk then w.nextId :: w.live else w.live })
  else (.error .processError, c, w)

/-- `OBSController.disconnect`: returns `False` when no handle is present;
otherwise calls `self.ws.disconnect()` (`closeRaises` says whether that call
raises, in which case `OBSConnectionError` is raised) and in the `finally`
block always sets `self.ws = None`. -/
def disconnect (closeRaises : Bool) (c : Controller) (w : World) :
    Except OBSError Bool × Controller × World :=
  match c.ws with
  | none => (.ok false, c, w)
  | some client =>
    if closeRaises then
      (.error .connectionError, { c with ws := none }, w)
    else
      (.ok true, { c with ws := none }, { w with live := w.live.erase client.id })

/-- `OBSController.websocket_connection_health_check`: builds a throwaway
`obsws` from the configured credentials, connects it, disconnects it, and
returns `True`; any exception yields `False`.  `self` is never written.  When
the connect succeeds but the close raises, the throwaway connection is left
open (leaked) but is not referenced by the controller. -/
def websocket_connection_health_check (connectOk closeRaises : Bool)
    (c : Controller) (w : World) : Bool × Controller × World :=
  if connectOk then
    if closeRaises then
      (false, c, { nextId := w.nextId + 1, live := w.nextId :: w.live })
    else
      (true, c, { nextId := w.nextId + 1, live := w.live })
  else (false, c, { nextId := w.nextId + 1, live := w.live })

/-- Success test of the polling loop in `OBSController.save_replay`:
`latest_file_before is None and latest_file_after`, or both snapshots present
and `latest_file_before[\x27path\x27] != latest_file_after[\x27path\x27]`.
Only the path is compared; no timestamp takes part in the test. -/
def successCond (before after : Option FileInfo) : Bool :=
  match before, after with
  | none, some _ => true
  | some b, some a => if b.path = a.path then false else true
  | _, _ => false

/-- Polling loop `while time.time() <= deadline` of `save_replay`, discretised:
the loop body runs at integer times `t = 0, 1, ...` (each `time.sleep(1)`
advances `t` by one), the deadline is `timeout`, and `fuel` bounds the
remaining iterations.  Started with `fuel = timeout + 1` at `t = 0`, fuel runs
out exactly when `t = timeout + 1`, i.e. exactly when the `while` condition
first fails, so the base case and the guard agree.  Returns the result of the
function together with the time at which it returns. -/
def pollAux (timeout : Nat) (dirAt : Nat → Option (List FileInfo))
    (before : Option FileInfo) : Nat → Nat → Bool × Nat
  | 0, t => (false, t)
  | fuel + 1, t =>
    if t ≤ timeout then
      if successCond before (get_latest_video (dirAt t)) then (true, t)
      else pollAux timeout dirAt before fuel (t + 1)
    else (false, t)

/-- Environment of one `save_replay` call: `dirAt t` is the directory scan an
index query at time `t` observes, and `callOk` says whether
`self.ws.call(requests.SaveReplayBuffer())` returns without raising. -/
structure PollEnv where
  dirAt : Nat → Option (List FileInfo)
  callOk : Bool

/-- `OBSController.save_replay`, decorated with `@require_connection` only:
if `is_connected` is false the decorator raises `OBSWebSocketError` before any
request is issued.  Otherwise the newest file is snapshotted, the save request
is issued, and the directory is polled under the deadline; if the remote call
raises, the handler returns `False` at once.  The second component lists every
remote request issued during the call. -/
def save_replay (e : PollEnv) (timeout : Nat) (c : Controller) :
    Except OBSError (Bool × Nat) × List Request :=
  if is_connected c then
    let before := get_latest_video (e.dirAt 0)
    if e.callOk then
      (.ok (pollAux timeout e.dirAt before (timeout + 1) 0), [.saveReplayBuffer])
    else (.ok (false, 0), [.saveReplayBuffer])
  else (.error .webSocketError, [])

/-- `OBSController.start_replay_buffer`, decorated with `@require_connection`
only: guard, then one `StartReplayBuffer` request whose outcome is returned as
a boolean (`callOk` says whether the call raises). -/
def start_replay_buffer (callOk : Bool) (c : Controller) :
    Except OBSError Bool × List Request :=
  if is_connected c then
    (if callOk then .ok true else .ok false, [.startReplayBuffer])
  else (.error .webSocketError, [])

/-! ### Helper lemmas about the directory index -/

theorem maxByMtimeAux_mem (l : List FileInfo) :
    ∀ cur, maxByMtimeAux cur l = cur ∨ maxByMtimeAux cur l ∈ l := by
  induction l with
  | nil => intro cur; exact Or.inl rfl
  | cons f fs ih =>
    intro cur
    simp only [maxByMtimeAux]
    rcases ih (if f.mtime > cur.mtime then f else cur) with h | h
    · rw [h]
      split
      · exact Or.inr (List.mem_cons_self _ _)
      · exact Or.inl rfl
    · exact Or.inr (List.mem_cons_of_mem _ h)

theorem maxByMtimeAux_ge (l : List FileInfo) :
    ∀ cur, cur.mtime ≤ (maxByMtimeAux cur l).mtime ∧
      ∀ g ∈ l, g.mtime ≤ (maxByMtimeAux cur l).mtime := by
  induction l with
  | nil => intro cur; exact ⟨le_refl _, by simp⟩
  | cons f fs ih =>
    intro cur
    obtain ⟨h1, h2⟩ := ih (if f.mtime > cur.mtime then f else cur)
    have hc : cur.mtime ≤ (if f.mtime > cur.mtime then f else cur).mtime := by
      split <;> omega
    have hf : f.mtime ≤ (if f.mtime > cur.mtime then f else cur).mtime := by
      split <;> omega
    refine ⟨le_trans hc h1, ?_⟩
    intro g hg
    rcases List.mem_cons.mp hg with rfl | hg
    · exact le_trans hf h1
    · exact h2 g hg

/-! ### Helper lemmas about the retention loop -/

theorem cleanupLoop_allOk_drop (cap : Nat) (l : List FileInfo) :
    ∀ cs, ∃ k, cleanupLoop cap (fun _ => true) cs l = l.drop k := by
  induction l with
  | nil => intro cs; exact ⟨0, rfl⟩
  | cons v rest ih =>
    intro cs
    by_cases h : cs ≤ cap
    · refine ⟨0, ?_⟩
      simp [cleanupLoop, h]
    · obtain ⟨k, hk⟩ := ih cs
      refine ⟨k + 1, ?_⟩
      simpa [cleanupLoop, h, statAfterRemove] using hk

theorem filter_orderedInsert (c : Nat) (f : FileInfo) (l : List FileInfo) :
    (List.orderedInsert (fun a b => a.ctime ≤ b.ctime) f l).filter
        (fun x => x.ctime == c) =
      List.filter (fun x => x.ctime == c) (f :: l) := by
  induction l with
  | nil => rfl
  | cons g gs ih =>
    by_cases hle : f.ctime ≤ g.ctime
    · simp [List.orderedInsert, hle]
    · have hlt : g.ctime < f.ctime := Nat.lt_of_not_le hle
      by_cases hf : f.ctime = c
      · have hg : (g.ctime == c) = false := by
          simp only [beq_eq_false_iff_ne, ne_eq]
          omega
        simp only [List.orderedInsert, hle, if_false, List.filter, hg] at *
        simp only [hf, beq_self_eq_true] at *
        simpa [hg] using ih
      · have hf' : (f.ctime == c) = false := by
          simp only [beq_eq_false_iff_ne, ne_eq]
          exact hf
        simp only [List.orderedInsert, hle, if_false, List.filter, hf'] at *
        cases hgc : (g.ctime == c) <;> simp [hgc, ih] at *

theorem sortByCtime_filter (c : Nat) (l : List FileInfo) :
    (sortByCtime l).filter (fun x => x.ctime == c) =
      l.filter (fun x => x.ctime == c) := by
  induction l with
  | nil => rfl
  | cons a l ih =>
    have h := filter_orderedInsert c a
      (List.insertionSort (fun f g => f.ctime ≤ g.ctime) l)
    simp only [sortByCtime, List.insertionSort] at *
    rw [h]
    simp only [List.filter]
    cases hac : (a.ctime == c) <;> simp [hac, ih]

/-! ### Helper lemmas about the polling loop -/

theorem pollAux_fail (timeout : Nat) (dirAt : Nat → Option (List FileInfo))
    (before : Option FileInfo) :
    ∀ fuel t, t + fuel = timeout + 1 →
      (∀ s, t ≤ s → s ≤ timeout →
        successCond before (get_latest_video (dirAt s)) = false) →
      pollAux timeout dirAt before fuel t = (false, timeout + 1) := by
  intro fuel
  induction fuel with
  | zero =>
    intro t ht _
    have h : t = timeout + 1 := by omega
    simp [pollAux, h]
  | succ fuel ih =>
    intro t ht hfail
    have htle : t ≤ timeout := by omega
    have hc : successCond before (get_latest_video (dirAt t)) = false :=
      hfail t (le_refl t) htle
    simp only [pollAux, htle, if_true, hc, if_false, Bool.false_eq_true]
    exact ih (t + 1) (by omega) fun s hs hs' => hfail s (by omega) hs'

theorem pollAux_success (timeout : Nat) (dirAt : Nat → Option (List FileInfo))
    (before : Option FileInfo) :
    ∀ fuel t, t + fuel = timeout + 1 →
      (∃ s, t ≤ s ∧ s ≤ timeout ∧
        successCond before (get_latest_video (dirAt s)) = true) →
      ∃ r, r ≤ timeout ∧ pollAux timeout dirAt before fuel t = (true, r) := by
  intro fuel
  induction fuel with
  | zero =>
    intro t ht ⟨s, hs1, hs2, _⟩
    omega
  | succ fuel ih =>
    intro t ht hex
    have htle : t ≤ timeout := by omega
    by_cases hc : successCond before (get_latest_video (dirAt t)) = true
    · exact ⟨t, htle, by simp [pollAux, htle, hc]⟩
    · obtain ⟨s, hs1, hs2, hs3⟩ := hex
      have hst : t ≠ s := fun h => hc (h ▸ hs3)
      obtain ⟨r, hr1, hr2⟩ :=
        ih (t + 1) (by omega) ⟨s, by omega, hs2, hs3⟩
      refine ⟨r, hr1, ?_⟩
      simp only [pollAux, htle, if_true, hc, if_false, Bool.false_eq_true]
      exact hr2

/-! ### Concrete fixtures used by counterexamples and witnesses -/

/-- Older 100 MiB clip of the retention scenario. -/
def clipA : FileInfo := { path := "clipA.mp4", mtime := 10, ctime := 1, size := 104857600 }

/-- Newer 50 MiB clip of the retention scenario. -/
def clipB : FileInfo := { path := "clipB.mp4", mtime := 20, ctime := 2, size := 52428800 }

/-- Sample file with the smaller modification time. -/
def fv1 : FileInfo := { path := "a.mp4", mtime := 3, ctime := 3, size := 7 }

/-- Sample file with the larger modification time. -/
def fv2 : FileInfo := { path := "b.mp4", mtime := 7, ctime := 4, size := 9 }

/-- Snapshot of a clip before an in-place rewrite. -/
def fSame1 : FileInfo := { path := "clip.mp4", mtime := 1, ctime := 1, size := 10 }

/-- Snapshot of the same clip after its modification time changed. -/
def fSame2 : FileInfo := { path := "clip.mp4", mtime := 2, ctime := 1, size := 10 }

/-- Clip that appears during the C4 witness scenario. -/
def clip1 : FileInfo := { path := "clip1.mp4", mtime := 100, ctime := 100, size := 5 }

/-- Controller holding a live connected handle with id 0. -/
def cConn : Controller :=
  { host := "localhost", port := 4455, password := "secret",
    ws := some { id := 0, connected := true } }

/-- Controller with no session handle. -/
def cNoWs : Controller :=
  { host := "localhost", port := 4455, password := "secret", ws := none }

/-- World in which connection 0 (the one `cConn` references) is open. -/
def w0 : World := { nextId := 1, live := [0] }

/-- Liveness query reporting that the OBS process is not running. -/
def procDead : Except Unit Bool := .ok false

/-- Poll environment whose directory stays empty forever. -/
def eNoFile : PollEnv := { dirAt := fun _ => some [], callOk := true }

/-- Poll environment in which the same file keeps its path but its modification
time changes from the second poll on. -/
def eSamePath : PollEnv :=
  { dirAt := fun t => if t = 0 then some [fSame1] else some [fSame2], callOk := true }

/-- Poll environment whose directory always holds exactly `fSame1`. -/
def eStatic : PollEnv := { dirAt := fun _ => some [fSame1], callOk := true }

/-- Poll environment: directory empty until time 2, then `clip1` appears. -/
def eAppear : PollEnv :=
  { dirAt := fun t => if t < 2 then some [] else some [clip1], callOk := true }

/-! ### Claim theorems -/

/-- C1: the spec (and the docstring of `cleanup_videos`) say that with
`clipA.mp4` (100 MiB, older) and `clipB.mp4` (50 MiB) under a 120 MiB cap,
exactly `clipA.mp4` is deleted and `clipB.mp4` survives.  The code instead
deletes every file: `os.remove` runs before the `stat` that should measure the
freed size, the `stat` raises on the now-missing file, the subtraction from
`current_size` is skipped, and the loop drains the whole list.  This theorem
evaluates the embedded code at the failing input: the folder is over the cap
and cleanup leaves nothing behind. -/
theorem C1_cleanup_deletes_every_file :
    125829120 < ([clipA, clipB].map (·.size)).sum ∧
    check_and_manage_folder_size 125829120 (fun _ => true) [clipA, clipB] = [] := by
  constructor
  · decide
  · decide

/-- C5: after `disconnect` on a present session handle the handle is cleared in
the `finally` block whether or not the underlying close raised, so
`is_connected` immediately afterwards is false. -/
theorem C5_disconnect_clears_handle :
    ∀ (closeRaises : Bool) (c : Controller) (w : World), c.ws.isSome = true →
      (disconnect closeRaises c w).2.1.ws = none ∧
      is_connected (disconnect closeRaises c w).2.1 = false := by
  intro cr c w h
  obtain ⟨client, hws⟩ := Option.isSome_iff_exists.mp h
  cases cr <;> simp [disconnect, hws, is_connected]

/-- Witness for C5 at a connected controller whose close raises. -/
theorem C5_witness :
    (disconnect true cConn w0).2.1.ws = none ∧
    is_connected (disconnect true cConn w0).2.1 = false :=
  C5_disconnect_clears_handle true cConn w0 (by decide)

/-- C6: `get_latest_video` returns `none` iff the directory is unreadable or
holds no matching file, and any returned file belongs to the scan and carries a
modification time at least that of every other matching file; the function is
total, so ties resolve to a single winner without crashing. -/
theorem C6_get_latest_video_correct :
    (∀ dir, get_latest_video dir = none ↔ dir = none ∨ dir = some []) ∧
    (∀ fs f, get_latest_video (some fs) = some f →
      f ∈ fs ∧ ∀ g ∈ fs, g.mtime ≤ f.mtime) := by
  constructor
  · intro dir
    match dir with
    | none => simp [get_latest_video]
    | some [] => simp [get_latest_video, maxByMtime]
    | some (f :: fs) => simp [get_latest_video, maxByMtime]
  · intro fs f h
    match fs with
    | [] => simp [get_latest_video, maxByMtime] at h
    | g :: gs =>
      simp only [get_latest_video, maxByMtime, Option.some.injEq] at h
      subst h
      constructor
      · rcases maxByMtimeAux_mem gs g with h | h
        · rw [h]; exact List.mem_cons_self _ _
        · exact List.mem_cons_of_mem _ h
      · intro x hx
        obtain ⟨h1, h2⟩ := maxByMtimeAux_ge gs g
        rcases List.mem_cons.mp hx with rfl | hx
        · exact h1
        · exact h2 x hx

/-- Witness for C6 at a two-file directory whose newest file is `fv2`. -/
theorem C6_witness : fv2 ∈ [fv1, fv2] :=
  (C6_get_latest_video_correct.2 [fv1, fv2] fv2 (by decide)).1

/-- C7: when no deletion fails, the files surviving `cleanup_videos` are a
suffix of the creation-time-sorted scan (oldest removed first), and the sort
used to pick the oldest file is stable: files of equal creation time keep the
relative order produced by the directory scan. -/
theorem C7_survivors_are_sorted_suffix :
    ∀ (cap : Nat) (scan : List FileInfo),
      (∃ k, cleanup_videos cap (fun _ => true) scan = (sortByCtime scan).drop k) ∧
      ∀ c, (sortByCtime scan).filter (fun x => x.ctime == c) =
        scan.filter (fun x => x.ctime == c) := by
  intro cap scan
  refine ⟨?_, fun c => sortByCtime_filter c scan⟩
  simpa [cleanup_videos] using
    cleanupLoop_allOk_drop cap (sortByCtime scan) (((sortByCtime scan).map (·.size)).sum)

/-- C8: the health check builds only a throwaway session from the configured
credentials; whatever the connect and close attempts do, every field of the
controller, in particular `ws` and the derived `is_connected`, is unchanged. -/
theorem C8_health_check_frame :
    ∀ (connectOk closeRaises : Bool) (c : Controller) (w : World),
      (websocket_connection_health_check connectOk closeRaises c w).2.1 = c ∧
      is_connected (websocket_connection_health_check connectOk closeRaises c w).2.1 =
        is_connected c := by
  intro co cr c w
  cases co <;> cases cr <;> simp [websocket_connection_health_check]

/-- C10: when the liveness query raises, `is_process_running` falls off the end
of the function and returns `None` rather than a boolean; the value is falsy,
so `require_process_running` treats the failed query exactly like a dead
process and `connect` raises `OBSProcessError` before touching any state. -/
theorem C10_process_query_error_yields_none :
    ∀ (q : Except Unit Bool) (connectOk : Bool) (c : Controller) (w : World),
      q = .error () →
      is_process_running q = none ∧
      truthy (is_process_running q) = false ∧
      connect q connectOk c w = (.error .processError, c, w) := by
  intro q co c w hq
  subst hq
  exact ⟨rfl, rfl, by simp [connect, is_process_running, truthy]⟩

/-- Witness for C10 at a raising liveness query. -/
theorem C10_witness :
    is_process_running (.error ()) = none ∧
    truthy (is_process_running (.error ())) = false ∧
    connect (.error ()) true cConn w0 = (.error .processError, cConn, w0) :=
  C10_process_query_error_yields_none (.error ()) true cConn w0 rfl

/-- C2 counterexample: the claim says `save_replay` and `start_replay_buffer`
fail with `OBSProcessError` when the process is not alive, the process check
coming before the connection check.  In the source both carry only
`@require_connection`: with the process dead but the stale handle still
reporting connected, `save_replay` issues the remote save request and polls to
the deadline, and `start_replay_buffer` succeeds — neither raises
`OBSProcessError`. -/
theorem C2_counterexample :
    truthy (is_process_running procDead) = false ∧
    save_replay eNoFile 2 cConn = (.ok (false, 3), [.saveReplayBuffer]) ∧
    start_replay_buffer true cConn = (.ok true, [.startReplayBuffer]) := by
  refine ⟨rfl, ?_, rfl⟩
  rfl

/-- C2 amended: `connect` is guarded by the process check only, raising
`OBSProcessError` (and leaving the controller and the connection world
untouched) when the liveness query is falsy; `save_replay` and
`start_replay_buffer` are guarded by the connection check only, raising
`OBSWebSocketError` before any remote request is issued when no live session
exists; neither of the two performs a process check. -/
theorem C2_amended_guards :
    ∀ (q : Except Unit Bool) (connectOk : Bool) (c : Controller) (w : World)
      (e : PollEnv) (timeout : Nat) (callOk : Bool),
      (truthy (is_process_running q) = false →
        connect q connectOk c w = (.error .processError, c, w)) ∧
      (is_connected c = false →
        save_replay e timeout c = (.error .webSocketError, []) ∧
        start_replay_buffer callOk c = (.error .webSocketError, [])) := by
  intro q co c w e timeout callOk
  constructor
  · intro h; simp [connect, h]
  · intro h
    exact ⟨by simp [save_replay, h], by simp [start_replay_buffer, h]⟩

/-- Witness for the amended C2 at a dead process and a handle-free controller. -/
theorem C2_witness :
    connect procDead true cNoWs w0 = (.error .processError, cNoWs, w0) ∧
    save_replay eNoFile 2 cNoWs = (.error .webSocketError, []) ∧
    start_replay_buffer true cNoWs = (.error .webSocketError, []) := by
  obtain ⟨h1, h2⟩ := C2_amended_guards procDead true cNoWs w0 eNoFile 2 true
  exact ⟨h1 rfl, h2 rfl⟩

/-- C3 counterexample: the claim says `save_replay` declares success when the
newest file keeps its path but its modification time changes.  Here the newest
file path is constant while the modification time changes from 1 to 2 before
the deadline, and `save_replay` still times out, because the loop compares the
two snapshots by path alone. -/
theorem C3_counterexample :
    get_latest_video (eSamePath.dirAt 0) = some fSame1 ∧
    get_latest_video (eSamePath.dirAt 1) = some fSame2 ∧
    fSame1.path = fSame2.path ∧
    fSame1.mtime ≠ fSame2.mtime ∧
    save_replay eSamePath 2 cConn = (.ok (false, 3), [.saveReplayBuffer]) := by
  refine ⟨by decide, by decide, by decide, by decide, ?_⟩
  rfl

/-- C3 amended: the polling loop of `save_replay` declares success exactly when
the before-snapshot is absent and a newest file is observed, or both snapshots
are present with different paths; modification times play no part, so a newest
file that keeps its path while its modification time changes is not detected. -/
theorem C3_amended_success_only_by_path :
    ∀ before after,
      successCond before after = true ↔
        ((before = none ∧ after ≠ none) ∨
          ∃ x y, before = some x ∧ after = some y ∧ x.path ≠ y.path) := by
  intro b a
  match b, a with
  | none, none => simp [successCond]
  | none, some y => simp [successCond]
  | some x, none => simp [successCond]
  | some x, some y =>
    by_cases h : x.path = y.path <;> simp [successCond, h]

/-- Witness for the amended C3: differing paths are detected as success. -/
theorem C3_witness : successCond (some fSame1) (some clipB) = true :=
  (C3_amended_success_only_by_path (some fSame1) (some clipB)).mpr
    (Or.inr ⟨fSame1, clipB, rfl, rfl, by decide⟩)

/-- C4: on a connected controller whose save request goes out, (a) if the
before-snapshot is `none` and a file is observed at some poll instant within
the deadline, `save_replay` returns success at an instant within the deadline,
and (b) if the before-snapshot is some file and every newest file observed up
to the deadline keeps that path, `save_replay` returns the timeout failure at
instant `timeout + 1` — strictly after the deadline and after at least one
poll interval — with the save request as the only request ever issued, so the
pending save is not cancelled. -/
theorem C4_save_replay_outcomes :
    ∀ (e : PollEnv) (timeout : Nat) (c : Controller),
      is_connected c = true → e.callOk = true →
      ((get_latest_video (e.dirAt 0) = none →
        (∃ t, t ≤ timeout ∧ (get_latest_video (e.dirAt t)).isSome = true) →
        ∃ t, t ≤ timeout ∧
          save_replay e timeout c = (.ok (true, t), [.saveReplayBuffer])) ∧
      (∀ X, get_latest_video (e.dirAt 0) = some X →
        (∀ t, t ≤ timeout → ∀ a, get_latest_video (e.dirAt t) = some a →
          a.path = X.path) →
        save_replay e timeout c = (.ok (false, timeout + 1), [.saveReplayBuffer]) ∧
        timeout < timeout + 1 ∧ 1 ≤ timeout + 1)) := by
  intro e timeout c hconn hcall
  constructor
  · intro hb hex
    obtain ⟨t, ht, hsome⟩ := hex
    have hsucc : successCond (get_latest_video (e.dirAt 0))
        (get_latest_video (e.dirAt t)) = true := by
      rw [hb]
      obtain ⟨a, ha⟩ := Option.isSome_iff_exists.mp hsome
      rw [ha]
      rfl
    obtain ⟨r, hr, hpoll⟩ :=
      pollAux_success timeout e.dirAt (get_latest_video (e.dirAt 0)) (timeout + 1) 0
        (by omega) ⟨t, Nat.zero_le t, ht, hsucc⟩
    refine ⟨r, hr, ?_⟩
    simp [save_replay, hconn, hcall, hpoll]
  · intro X hX hnopath
    have hfail : ∀ s, 0 ≤ s → s ≤ timeout →
        successCond (get_latest_video (e.dirAt 0))
          (get_latest_video (e.dirAt s)) = false := by
      intro s _ hs
      rw [hX]
      match hA : get_latest_video (e.dirAt s) with
      | none => rfl
      | some a =>
        have hp := hnopath s hs a hA
        simp [successCond, hp]
    have hpoll :=
      pollAux_fail timeout e.dirAt (get_latest_video (e.dirAt 0)) (timeout + 1) 0
        (by omega) hfail
    exact ⟨by simp [save_replay, hconn, hcall, hpoll], Nat.lt_succ_self _,
      Nat.succ_le_succ (Nat.zero_le _)⟩

/-- Witness for C4: a static single-file directory never shows a new path, so
the call times out at instant 6 under deadline 5. -/
theorem C4_witness :
    save_replay eStatic 5 cConn = (.ok (false, 6), [.saveReplayBuffer]) ∧
    5 < 6 ∧ 1 ≤ 6 :=
  (C4_save_replay_outcomes eStatic 5 cConn rfl rfl).2 fSame1 (by decide)
    (fun t _ a ha => by
      have h : some fSame1 = some a := by
        simpa [eStatic, get_latest_video, maxByMtime, maxByMtimeAux] using ha
      cases h
      rfl)

/-- C9 counterexample: the claim says `connect` never leaves a second live
handle behind.  Starting from a controller whose handle 0 is live, a
successful `connect` allocates handle 1 and overwrites the reference without
closing handle 0: afterwards both connections 1 and 0 are open, so two live
handles created by this controller coexist. -/
theorem C9_counterexample :
    is_connected cConn = true ∧
    (connect (.ok true) true cConn w0).2.1.ws = some { id := 1, connected := true } ∧
    (connect (.ok true) true cConn w0).2.2.live = [1, 0] ∧
    2 ≤ (connect (.ok true) true cConn w0).2.2.live.length := by
  decide

/-- C9 amended: the controller references at most one handle at a time (its
single nullable `ws` field, which `connect` leaves pointing at the fresh
client), and connectivity is always derived by querying that handle — any two
controllers with the same handle agree on `is_connected`, so nothing is cached
separately; `connect` opens at most one new connection and closes none, so a
previously live connection survives, merely unreferenced. -/
theorem C9_amended_single_reference :
    ∀ (q : Except Unit Bool) (connectOk : Bool) (c : Controller) (w : World),
      truthy (is_process_running q) = true →
      (∀ c₁ c₂ : Controller, c₁.ws = c₂.ws → is_connected c₁ = is_connected c₂) ∧
      w.live ⊆ (connect q connectOk c w).2.2.live ∧
      (connect q connectOk c w).2.2.live.length ≤ w.live.length + 1 ∧
      (connect q connectOk c w).2.1.ws =
        some { id := w.nextId, connected := connectOk } := by
  intro q co c w h
  refine ⟨fun c₁ c₂ hws => by simp [is_connected, hws], ?_, ?_, by simp [connect, h]⟩
  · simp only [connect, h, if_true]
    cases co
    · simp
    · simp [List.subset_cons_self]
  · simp only [connect, h, if_true]
    cases co <;> simp

/-- Witness for the amended C9 at a handle-free controller and a running
process. -/
theorem C9_witness :
    w0.live ⊆ (connect (.ok true) true cNoWs w0).2.2.live ∧
    (connect (.ok true) true cNoWs w0).2.2.live.length ≤ w0.live.length + 1 ∧
    (connect (.ok true) true cNoWs w0).2.1.ws =
      some { id := w0.nextId, connected := true } :=
  (C9_amended_single_reference (.ok true) true cNoWs w0 rfl).2

end ObsController
